import Mathlib

/-!
Verification of the ChatEV `MInterface` Lightning module
(`code/model_interface.py`) against its specification.

The Python module is a thin adapter around external ML libraries.  We give a
shallow embedding of its custom logic:

* tensors of token ids are `List (List Int)` (batch of rows), and
  `torch.Tensor.masked_fill` / `==`-masks are element-wise list operations;
* a loss tensor element is a `PyFloat`, a classification of an IEEE value as
  NaN, a positive or negative infinity, or a finite value (modelled as an exact rational,
  abstracting IEEE rounding); `torch.isnan` / `torch.isinf` read off the
  classification;
* `re.findall(r'<(.*?)>', s)` is `findall` below, a left-to-right scan with
  lazy group matching (the dot of the pattern does not match a newline);
* Python `float(str)` is `parseFloat?`, an exact-rational parser for the
  sign/decimal/exponent forms (whitespace stripped; the `inf`/`nan`/underscore
  forms of CPython are not modelled);
* exceptions (`IndexError` from `[-1]`/`[0]` on an empty match list,
  `ValueError` from `float`) and `sys.exit` are modelled with `Except`/`Option`.
-/

namespace ChatEV

/-! ### forward: masked label construction (model_interface.py lines 47-61) -/

/-- Element-wise `torch.Tensor.masked_fill` on one row: where the mask is
true, the value is replaced by `v`. -/
def masked_fill_row (row : List Int) (mask : List Bool) (v : Int) : List Int :=
  List.zipWith (fun x m => if m then v else x) row mask

/-- `torch.Tensor.masked_fill` on a 2-D tensor. -/
def masked_fill (t : List (List Int)) (mask : List (List Bool)) (v : Int) :
    List (List Int) :=
  List.zipWith (fun row mrow => masked_fill_row row mrow v) t mask

/-- The boolean mask `t == v` of a 2-D tensor against a scalar. -/
def eq_mask (t : List (List Int)) (v : Int) : List (List Bool) :=
  t.map (fun row => row.map (fun x => x == v))

/-- Label construction of `MInterface.forward` (lines 53-55):
`target_ids = copy.deepcopy(input_ids)`,
`target_ids = target_ids.masked_fill(target_ids == pad_token_id, -100)`,
`target_ids = target_ids.masked_fill(token_type_ids == 0, -100)`. -/
def make_target_ids (pad_token_id : Int) (input_ids token_type_ids : List (List Int)) :
    List (List Int) :=
  let target_ids := input_ids
  let target_ids := masked_fill target_ids (eq_mask target_ids pad_token_id) (-100)
  masked_fill target_ids (eq_mask token_type_ids 0) (-100)

/-! ### forward: NaN/Inf guard (model_interface.py lines 62-74) -/

/-- Classification of one element of a torch tensor of floats. -/
inductive PyFloat where
  | nan : PyFloat
  | posinf : PyFloat
  | neginf : PyFloat
  | finite : ℚ → PyFloat
deriving DecidableEq

/-- `torch.isnan`, element-wise. -/
def torch_isnan : PyFloat → Bool
  | PyFloat.nan => true
  | _ => false

/-- `torch.isinf`, element-wise. -/
def torch_isinf : PyFloat → Bool
  | PyFloat.posinf => true
  | PyFloat.neginf => true
  | _ => false

/-- `MInterface.has_nan_or_inf` (lines 71-74):
`(torch.isnan(tensor) | torch.isinf(tensor)).any().item()`. -/
def has_nan_or_inf (tensor : List PyFloat) : Bool :=
  (List.zipWith (fun a b => a || b) (tensor.map torch_isnan) (tensor.map torch_isinf)).any id

/-- Tail of `MInterface.forward` (lines 62-68): if the loss has a NaN or an
infinity the process exits (`none`); otherwise the loss is returned. -/
def forward_guard (lm_loss : List PyFloat) : Option (List PyFloat) :=
  if has_nan_or_inf lm_loss then none else some lm_loss

/-! ### Regex extraction (pattern r'<(.*?)>' of lines 146 and 186) -/

/-- One match attempt of `<(.*?)>` starting just after a `<`: lazily consume
characters (the dot does not match a newline) until the first `>`; return
the group and the rest of the input, or `none` when no `>` is reachable. -/
def takeUntilGt : List Char → Option (List Char × List Char)
  | [] => none
  | c :: rest =>
    if c = '>' then some ([], rest)
    else if c = '\n' then none
    else (takeUntilGt rest).map (fun p => (c :: p.1, p.2))

/-- Fueled scan of `re.findall(r'<(.*?)>', s)`: at each position, a match is
attempted when the character is `<`; on success the scan resumes after the
matched `>`, on failure at the next character.  The fuel is the input length,
which bounds the number of scan steps since every step consumes at least one
character. -/
def findallFuel : Nat → List Char → List (List Char)
  | 0, _ => []
  | _, [] => []
  | fuel + 1, c :: rest =>
    if c = '<' then
      match takeUntilGt rest with
      | some p => p.1 :: findallFuel fuel p.2
      | none => findallFuel fuel rest
    else findallFuel fuel rest

/-- `re.findall(r'<(.*?)>', s)`, the list of captured groups. -/
def findall (s : List Char) : List (List Char) := findallFuel s.length s

/-! ### Python float(str) (lines 151-153 and 191-193) -/

/-- Numeric value of a digit string. -/
def digitsVal (cs : List Char) : Nat :=
  cs.foldl (fun n c => 10 * n + (c.toNat - 48)) 0

/-- Exact value of the decimal literal with integer digits `ip`, fractional
digits `fp` and decimal exponent `e`:
`(ip.fp) * 10 ^ e = (digits of ip followed by fp) * 10 ^ (e - length fp)`. -/
def decValue (ip fp : List Char) (e : Int) : ℚ :=
  let mant : Nat := digitsVal ip * 10 ^ fp.length + digitsVal fp
  let scale : Int := e - (fp.length : Int)
  if 0 ≤ scale then ((mant * 10 ^ scale.toNat : Nat) : ℚ)
  else Rat.divInt (mant : Int) ((10 ^ (-scale).toNat : Nat) : Int)

/-- Strip an optional leading sign; returns (isNegative, rest). -/
def parseSign : List Char → Bool × List Char
  | '+' :: rest => (false, rest)
  | '-' :: rest => (true, rest)
  | cs => (false, cs)

/-- Parse a trailing exponent part: empty input means exponent 0;
otherwise `e`/`E`, an optional sign and a nonempty digit string must
consume the whole input. -/
def parseExpPart : List Char → Option Int
  | [] => some 0
  | c :: rest =>
    if c = 'e' ∨ c = 'E' then
      let s := parseSign rest
      let d := s.2.span Char.isDigit
      if d.1 = ([] : List Char) ∨ d.2 ≠ ([] : List Char) then none
      else some (if s.1 then -(digitsVal d.1 : Int) else (digitsVal d.1 : Int))
    else none

/-- Parse an unsigned float literal: `digits [. digits] [exp]` or
`. digits [exp]`, with at least one digit overall. -/
def parseFloatMag (cs : List Char) : Option ℚ :=
  let ip := cs.span Char.isDigit
  match ip.2 with
  | '.' :: rest2 =>
    let fp := rest2.span Char.isDigit
    if ip.1 = ([] : List Char) ∧ fp.1 = ([] : List Char) then none
    else (parseExpPart fp.2).map (fun e => decValue ip.1 fp.1 e)
  | rest =>
    if ip.1 = ([] : List Char) then none
    else (parseExpPart rest).map (fun e => decValue ip.1 [] e)

/-- Strip leading and trailing whitespace. -/
def stripWs (cs : List Char) : List Char :=
  ((cs.dropWhile Char.isWhitespace).reverse.dropWhile Char.isWhitespace).reverse

/-- Python `float(str)` on the sign/decimal/exponent forms, with exact
rational semantics (IEEE rounding and the `inf`/`nan`/underscore forms of
CPython are abstracted away); `none` models a raised `ValueError`. -/
def parseFloat? (cs : List Char) : Option ℚ :=
  let s := parseSign (stripWs cs)
  (parseFloatMag s.2).map (fun v => if s.1 then -v else v)

/-! ### Epoch-end metric computation
(`on_validation_epoch_end` lines 144-161, `on_test_epoch_end` lines 184-201;
the two bodies are identical) -/

/-- The exceptions the epoch-end loop can raise. -/
inductive PyError where
  | indexError : PyError
  | valueError : PyError
deriving DecidableEq

deriving instance DecidableEq for Except

/-- One iteration of the epoch-end loop (lines 149-157 resp. 189-197):
`predict = re.findall(pattern, predict)[-1]` (IndexError on no match),
`label = float(re.findall(pattern, label)[0])` (IndexError on no match,
ValueError on a non-numeric group), then `try: predict = float(predict)
except: predict = 0`.  Returns the appended pair `(y_true, y_pre)`. -/
def extractPair (predict label : String) : Except PyError (ℚ × ℚ) :=
  match (findall predict.data).getLast? with
  | none => Except.error PyError.indexError
  | some p =>
    match (findall label.data).head? with
    | none => Except.error PyError.indexError
    | some l =>
      match parseFloat? l with
      | none => Except.error PyError.valueError
      | some lv =>
        let pv : ℚ :=
          match parseFloat? p with
          | some v => v
          | none => 0
        Except.ok (lv, pv)

/-- The epoch-end loop over all collected pairs; the first exception aborts
the computation. -/
def epochEndPairs : List (String × String) → Except PyError (List (ℚ × ℚ))
  | [] => Except.ok []
  | pr :: rest =>
    match extractPair pr.1 pr.2 with
    | Except.error e => Except.error e
    | Except.ok x =>
      match epochEndPairs rest with
      | Except.error e => Except.error e
      | Except.ok xs => Except.ok (x :: xs)

/-- `sklearn.metrics.mean_absolute_error` with uniform average:
`sum |y_true i - y_pre i| / n`. -/
def mean_absolute_error (y_true y_pre : List ℚ) : ℚ :=
  (List.zipWith (fun a b => |a - b|) y_true y_pre).sum / (y_true.length : ℚ)

/-- The whole epoch-end computation: run the loop on the zipped collected
texts and labels, then log `mean_absolute_error(y_true, y_pre)`. -/
def epochEndMetric (generated_text label : List String) : Except PyError ℚ :=
  match epochEndPairs (generated_text.zip label) with
  | Except.error e => Except.error e
  | Except.ok ys => Except.ok (mean_absolute_error (ys.map Prod.fst) (ys.map Prod.snd))

/-- `MInterface.on_validation_epoch_end` (lines 144-161). -/
def on_validation_epoch_end (generated_text label : List String) : Except PyError ℚ :=
  epochEndMetric generated_text label

/-- `MInterface.on_test_epoch_end` (lines 184-201). -/
def on_test_epoch_end (generated_text label : List String) : Except PyError ℚ :=
  epochEndMetric generated_text label

/-! ### generate (model_interface.py lines 95-121) -/

/-- The external pieces `generate` delegates to: the tokenizer call of
line 98 (producing `input_ids` and `attention_mask`), `self.model.generate`
of lines 101-116 (producing `sequences`), and `tokenizer.batch_decode`
of line 119.  They are opaque parameters of the embedding. -/
structure GenBackend where
  tokenize : List String → List (List Int) × List (List Int)
  model_generate : List (List Int) → List (List Int) → List (List Int)
  batch_decode : List (List Int) → List String

/-- `MInterface.generate`: the model input is
`[prompt for prompt, answer in zip(batch['input'], batch['answer'])]`
(line 97), which is tokenized, decoded by the model and batch-decoded. -/
def generate (B : GenBackend) (input answer : List String) : List String :=
  let input_pairs := (input.zip answer).map Prod.fst
  let enc := B.tokenize input_pairs
  let sequence_ids := B.model_generate enc.1 enc.2
  B.batch_decode sequence_ids

/-- A concrete backend used to exhibit behaviour of `generate`: one token
row per prompt, the model echoes its input, decoding yields one fixed
string per sequence. -/
def idBackend : GenBackend :=
  ⟨fun ps => (ps.map (fun _ => [0]), ps.map (fun _ => [1])),
   fun ids _ => ids,
   fun ids => ids.map (fun _ => ("x"))⟩

/-! ### configure_optimizers (model_interface.py lines 204-230) -/

/-- The hyperparameters `configure_optimizers` reads.  `weight_decay` is
optional, modelling the `hasattr` check of line 205. -/
structure HParams where
  lr : ℚ
  lr_scheduler : Option String
  lr_decay_min_lr : ℚ
  lr_warmup_start_lr : ℚ
  weight_decay : Option ℚ
deriving DecidableEq

/-- The `torch.optim.AdamW` optimizer as configured on lines 209-211: one
parameter group over the model parameters with a learning rate and a weight
decay. -/
structure AdamWOptimizer where
  lr : ℚ
  weight_decay : ℚ
deriving DecidableEq

/-- The arguments the `LinearWarmupCosineLRScheduler` of `optims` is
constructed with on lines 221-226. -/
structure LinearWarmupCosineLRScheduler where
  max_step : Int
  min_lr : ℚ
  init_lr : ℚ
  warmup_steps : Int
  warmup_start_lr : ℚ
deriving DecidableEq

/-- What `configure_optimizers` leaves behind: the returned optimizer and
the scheduler stored in `self.scheduler` (when one is set). -/
structure OptimConfig where
  optimizer : AdamWOptimizer
  scheduler : Option LinearWarmupCosineLRScheduler
deriving DecidableEq

/-- `MInterface.configure_optimizers` (lines 204-230); `max_steps` is
`self.trainer.max_steps` and `//` is Python floor division (`Int.fdiv`).
`Except.error` models the raised `ValueError`. -/
def configure_optimizers (hp : HParams) (max_steps : Int) : Except String OptimConfig :=
  let weight_decay := match hp.weight_decay with | some w => w | none => 0
  let optimizer : AdamWOptimizer := ⟨hp.lr, weight_decay⟩
  match hp.lr_scheduler with
  | none => Except.ok ⟨optimizer, none⟩
  | some s =>
    let max_step := max_steps
    let warmup_steps := Int.fdiv max_step 20
    if s = ("cosine") then
      Except.ok ⟨optimizer,
        some ⟨max_step, hp.lr_decay_min_lr, hp.lr, warmup_steps, hp.lr_warmup_start_lr⟩⟩
    else
      Except.error ("Invalid lr_scheduler type!")

/-! ### load_llm (model_interface.py lines 234-274) -/

/-- Torch dtypes occurring in the loader. -/
inductive TorchDtype where
  | float16 : TorchDtype
  | float32 : TorchDtype
  | bfloat16 : TorchDtype
deriving DecidableEq

/-- The `BitsAndBytesConfig` of lines 249-254. -/
structure BitsAndBytesConfig where
  load_in_4bit : Bool
  bnb_4bit_quant_type : String
  bnb_4bit_compute_dtype : TorchDtype
  bnb_4bit_use_double_quant : Bool
deriving DecidableEq

/-- The `LoraConfig` of lines 265-272. -/
structure LoraConfig where
  r : Nat
  lora_alpha : Nat
  lora_dropout : ℚ
  bias : String
  task_type : String
  target_modules : List String
deriving DecidableEq

/-- The model value stored in `self.model`: either the quantized pretrained
causal LM fetched from the hub (lines 256-263), or a PEFT wrapper of a base
model with a LoRA config. -/
inductive LlmModel where
  | pretrained : String → BitsAndBytesConfig → LlmModel
  | peft_wrapped : LlmModel → LoraConfig → LlmModel
deriving DecidableEq

/-- `peft.get_peft_model`: wrap a model with LoRA adapters. -/
def get_peft_model (model : LlmModel) (cfg : LoraConfig) : LlmModel :=
  LlmModel.peft_wrapped model cfg

/-- `model_id = model_source + model_name` (lines 236-239). -/
def model_id : String := ("meta-llama/") ++ ("Llama-3.2-1B-Instruct")

/-- The quantization config built on lines 249-254 (`torch_dtype` of
line 240 is `torch.float16`). -/
def bnb_config : BitsAndBytesConfig :=
  ⟨true, ("nf4"), TorchDtype.float16, true⟩

/-- The LoRA config built on lines 265-272. -/
def peft_config : LoraConfig :=
  ⟨16, 32, 0.05, ("none"), ("CAUSAL_LM"),
   [("up_proj"), ("down_proj"), ("gate_proj"), ("k_proj"), ("q_proj"),
    ("v_proj"), ("o_proj")]⟩

/-- `MInterface.load_llm` (lines 234-274): the value stored in
`self.model`, namely the 4-bit-quantized pretrained model wrapped by
`get_peft_model`. -/
def load_llm : LlmModel :=
  get_peft_model (LlmModel.pretrained model_id bnb_config) peft_config

/-! ### Call structure (C7): the `MInterface` methods each method's body
invokes, read off the source in order of appearance. -/

/-- Methods and library entry points invoked by the bodies of
`MInterface`. -/
inductive MethodCall where
  | save_hyperparameters : MethodCall
  | load_llm : MethodCall
  | forward : MethodCall
  | configure_loss : MethodCall
  | scheduler_step : MethodCall
  | log : MethodCall
  | generate : MethodCall
  | tokenizer_encode : MethodCall
  | get_input_embeddings : MethodCall
  | model_forward : MethodCall
  | has_nan_or_inf : MethodCall
  | model_generate : MethodCall
  | batch_decode : MethodCall
deriving DecidableEq

/-- Calls made by `__init__` (lines 39-44). -/
def init_calls : List MethodCall :=
  [MethodCall.save_hyperparameters, MethodCall.load_llm]

/-- Calls made by `forward` (lines 47-68). -/
def forward_calls : List MethodCall :=
  [MethodCall.tokenizer_encode, MethodCall.get_input_embeddings,
   MethodCall.model_forward, MethodCall.has_nan_or_inf]

/-- Calls made by `training_step` (lines 82-91). -/
def training_step_calls : List MethodCall :=
  [MethodCall.scheduler_step, MethodCall.forward, MethodCall.configure_loss,
   MethodCall.log, MethodCall.log, MethodCall.log]

/-- Calls made by `generate` (lines 95-121). -/
def generate_calls : List MethodCall :=
  [MethodCall.tokenizer_encode, MethodCall.model_generate, MethodCall.batch_decode]

/-- Calls made by `validation_step` (lines 133-141). -/
def validation_step_calls : List MethodCall :=
  [MethodCall.generate]

/-- Calls made by `test_step` (lines 173-181). -/
def test_step_calls : List MethodCall :=
  [MethodCall.generate]

/-- Calls made by `configure_optimizers` (lines 204-230): it invokes no
`MInterface` method. -/
def configure_optimizers_calls : List MethodCall := []

/-! ### Helper lemmas -/

theorem map_fst_zip_take {α β : Type} (l1 : List α) (l2 : List β) :
    (l1.zip l2).map Prod.fst = l1.take l2.length := by
  induction l1 generalizing l2 with
  | nil => simp
  | cons a l ih =>
    cases l2 with
    | nil => simp
    | cons b l2 => simp [ih]

theorem masked_fill_row_eq (pad : Int) (row trow : List Int) :
    masked_fill_row (masked_fill_row row (row.map (fun x => x == pad)) (-100))
        (trow.map (fun t => t == 0)) (-100)
      = List.zipWith (fun x t => if x = pad ∨ t = 0 then (-100 : Int) else x) row trow := by
  induction row generalizing trow with
  | nil => simp [masked_fill_row]
  | cons x xs ih =>
    cases trow with
    | nil => simp [masked_fill_row]
    | cons t ts =>
      simp only [masked_fill_row, List.map_cons, List.zipWith_cons_cons] at *
      refine congrArg₂ List.cons ?_ (ih ts)
      by_cases hx : x = pad <;> by_cases ht : t = 0 <;> simp [hx, ht]

theorem has_nan_or_inf_iff (t : List PyFloat) :
    has_nan_or_inf t = true ↔ ∃ x ∈ t, torch_isnan x = true ∨ torch_isinf x = true := by
  induction t with
  | nil => simp [has_nan_or_inf]
  | cons x xs ih =>
    simp only [has_nan_or_inf, List.map_cons, List.zipWith_cons_cons, List.any_cons] at *
    simp only [id_eq, Bool.or_eq_true] at *
    rw [ih]
    constructor
    · rintro (h | ⟨y, hy, hp⟩)
      · exact ⟨x, List.mem_cons_self x xs, h⟩
      · exact ⟨y, List.mem_cons_of_mem x hy, hp⟩
    · rintro ⟨y, hy, hp⟩
      rcases List.mem_cons.mp hy with rfl | hy
      · exact Or.inl hp
      · exact Or.inr ⟨y, hy, hp⟩

/-! ### Claim theorems C1, C2 -/

/-- C1: In `forward`, the label tensor produced from the tokenized
`input_ids` is exactly the element-wise image in which a position holds
`-100` iff its token equals the pad token id or its token-type id is `0`,
and holds the input token id otherwise. -/
theorem make_target_ids_spec (pad_token_id : Int) (input_ids token_type_ids : List (List Int)) :
    make_target_ids pad_token_id input_ids token_type_ids
      = List.zipWith (fun row trow =>
          List.zipWith (fun x t => if x = pad_token_id ∨ t = 0 then (-100 : Int) else x) row trow)
        input_ids token_type_ids := by
  unfold make_target_ids masked_fill eq_mask
  induction input_ids generalizing token_type_ids with
  | nil => simp
  | cons row rows ih =>
    cases token_type_ids with
    | nil => simp
    | cons trow trows =>
      simp only [List.map_cons, List.zipWith_cons_cons]
      refine congrArg₂ List.cons (masked_fill_row_eq pad_token_id row trow) ?_
      exact ih trows

/-- C2: `forward` aborts (returns `none`, modelling `sys.exit`) iff the loss
tensor has at least one NaN or infinite element, where NaN/Inf detection is
`has_nan_or_inf`; otherwise it returns the loss unchanged. -/
theorem forward_guard_spec (lm_loss : List PyFloat) :
    (forward_guard lm_loss = none
        ↔ ∃ x ∈ lm_loss, torch_isnan x = true ∨ torch_isinf x = true)
    ∧ ((¬ ∃ x ∈ lm_loss, torch_isnan x = true ∨ torch_isinf x = true)
        → forward_guard lm_loss = some lm_loss) := by
  have h := has_nan_or_inf_iff lm_loss
  by_cases hb : has_nan_or_inf lm_loss = true
  · refine ⟨⟨fun _ => h.mp hb, fun _ => ?_⟩, fun hno => absurd (h.mp hb) hno⟩
    simp [forward_guard, hb]
  · have hb' : has_nan_or_inf lm_loss = false := by
      cases hx : has_nan_or_inf lm_loss
      · rfl
      · exact absurd hx hb
    refine ⟨⟨fun hc => ?_, fun he => absurd (h.mpr he) hb⟩, fun _ => ?_⟩
    · exfalso
      revert hc
      simp [forward_guard, hb']
    · simp [forward_guard, hb']

theorem forward_guard_spec_witness :
    forward_guard [PyFloat.nan] = none :=
  (forward_guard_spec [PyFloat.nan]).1.mpr
    ⟨PyFloat.nan, List.mem_cons_self _ _, Or.inl rfl⟩

/-- C3: The evaluation step extracts a bracketed token via `r'<(.*?)>'` from
both the generated text and the label: when the generated text has a last
match `p` and the label has a first match `l` that parses as the float `lv`,
the pair appended by the loop is `(lv, float-or-0 of p)`: the prediction is
the last group of the generated text and the reference is the first group of
the label parsed as a float. -/
theorem extractPair_spec (predict label : String) (p l : List Char) (lv : ℚ)
    (hp : (findall predict.data).getLast? = some p)
    (hl : (findall label.data).head? = some l)
    (hlv : parseFloat? l = some lv) :
    extractPair predict label
      = Except.ok (lv, match parseFloat? p with | some v => v | none => 0) := by
  simp only [extractPair, hp, hl, hlv]

theorem extractPair_spec_witness :
    extractPair ("<abc>") ("<2>") = Except.ok (2, 0) := by
  rw [extractPair_spec ("<abc>") ("<2>") (['a', 'b', 'c']) (['2']) 2
    (by decide) (by decide) (by decide)]
  decide

theorem zipWith_abs_sub_map (ys : List (ℚ × ℚ)) :
    List.zipWith (fun a b => |a - b|) (ys.map Prod.fst) (ys.map Prod.snd)
      = ys.map (fun q => |q.1 - q.2|) := by
  induction ys with
  | nil => rfl
  | cons q qs ih => simp only [List.map_cons, List.zipWith_cons_cons, ih]

/-- C4: The metric logged at the end of a validation epoch and of a test
epoch is the mean absolute error of the extracted pairs: when the epoch-end
loop succeeds with the non-empty list `ys` of `(y_true, y_pre)` pairs, the
logged value is `(1/n) * sum |y_true i - y_pre i|` with `n` the number of
pairs. -/
theorem epoch_end_metric_spec (generated_text label : List String) (ys : List (ℚ × ℚ))
    (h : epochEndPairs (generated_text.zip label) = Except.ok ys) (hne : ys ≠ []) :
    on_validation_epoch_end generated_text label
        = Except.ok ((1 / (ys.length : ℚ)) * (ys.map (fun q => |q.1 - q.2|)).sum)
    ∧ on_test_epoch_end generated_text label
        = Except.ok ((1 / (ys.length : ℚ)) * (ys.map (fun q => |q.1 - q.2|)).sum) := by
  have hmain : epochEndMetric generated_text label
      = Except.ok ((1 / (ys.length : ℚ)) * (ys.map (fun q => |q.1 - q.2|)).sum) := by
    simp only [epochEndMetric, h]
    congr 1
    unfold mean_absolute_error
    rw [zipWith_abs_sub_map, List.length_map, one_div, ← div_eq_inv_mul]
  exact ⟨hmain, hmain⟩

theorem epoch_end_metric_spec_witness :
    on_validation_epoch_end (["<1>"]) (["<2>"])
      = Except.ok ((1 / (([((2 : ℚ), (1 : ℚ))].length : ℚ)))
          * (([((2 : ℚ), (1 : ℚ))].map (fun q => |q.1 - q.2|)).sum) ) :=
  (epoch_end_metric_spec (["<1>"]) (["<2>"]) ([(2, 1)]) (by decide) (by decide)).1

/-- C9: In the epoch-end loop, when the generated text has a last bracketed
group that does not parse as a float, the prediction appended for the MAE is
`0`; the try/except covers only the prediction, so the label's first group
must itself parse as a float or the loop raises `ValueError`. -/
theorem extractPair_unparsable_spec (predict label : String) (p l : List Char)
    (hp : (findall predict.data).getLast? = some p)
    (hl : (findall label.data).head? = some l)
    (hpf : parseFloat? p = none) :
    (∀ lv : ℚ, parseFloat? l = some lv → extractPair predict label = Except.ok (lv, 0))
    ∧ (parseFloat? l = none
        → extractPair predict label = Except.error PyError.valueError) := by
  constructor
  · intro lv hlv
    simp only [extractPair, hp, hl, hlv, hpf]
  · intro hlv
    simp only [extractPair, hp, hl, hlv]

theorem extractPair_unparsable_spec_witness :
    extractPair ("<xy>") ("<3>") = Except.ok (3, 0) :=
  (extractPair_unparsable_spec ("<xy>") ("<3>") (['x', 'y']) (['3'])
    (by decide) (by decide) (by decide)).1 3 (by decide)

/-- C10: When every collected generated text and label has at least one
bracketed match, the `[-1]` and `[0]` indexings of the epoch-end loop never
hit an empty match list (no `IndexError` is raised for any collected pair);
and on a generated text with no bracketed match the indexing fails with an
unhandled `IndexError`. -/
theorem epoch_end_index_spec :
    (∀ (generated_text label : List String),
        (∀ s ∈ generated_text, findall s.data ≠ []) →
        (∀ s ∈ label, findall s.data ≠ []) →
        ∀ pr ∈ generated_text.zip label,
          extractPair pr.1 pr.2 ≠ Except.error PyError.indexError)
    ∧ extractPair ("no bracket here") ("<1>") = Except.error PyError.indexError := by
  constructor
  · intro gens labels hg hl pr hpr
    obtain ⟨h1, h2⟩ := List.of_mem_zip hpr
    have hg1 : findall pr.1.data ≠ [] := hg pr.1 h1
    have hl1 : findall pr.2.data ≠ [] := hl pr.2 h2
    obtain ⟨p, hp⟩ := Option.isSome_iff_exists.mp (List.getLast?_isSome.mpr hg1)
    obtain ⟨l, hlh⟩ : ∃ l, (findall pr.2.data).head? = some l := by
      cases hfl : findall pr.2.data with
      | nil => exact absurd hfl hl1
      | cons a as => exact ⟨a, rfl⟩
    intro hc
    simp only [extractPair, hp, hlh] at hc
    cases hpf : parseFloat? l with
    | none => simp [hpf] at hc
    | some lv => simp [hpf] at hc
  · decide

theorem epoch_end_index_spec_witness :
    extractPair ("<a>") ("<1>") ≠ Except.error PyError.indexError :=
  epoch_end_index_spec.1 (["<a>"]) (["<1>"]) (by decide) (by decide)
    (("<a>"), ("<1>")) (by decide)

/-- C5: `configure_optimizers` always builds an AdamW optimizer with
learning rate `hparams.lr`; it returns it with no scheduler when
`hparams.lr_scheduler` is `None`, builds the warmup-cosine scheduler with
`warmup_steps = max_steps // 20` when it is `'cosine'`, and raises
`ValueError` for every other value. -/
theorem configure_optimizers_spec (hp : HParams) (max_steps : Int) :
    (hp.lr_scheduler = none →
        configure_optimizers hp max_steps
          = Except.ok ⟨⟨hp.lr, match hp.weight_decay with | some w => w | none => 0⟩, none⟩)
    ∧ (hp.lr_scheduler = some ("cosine") →
        configure_optimizers hp max_steps
          = Except.ok ⟨⟨hp.lr, match hp.weight_decay with | some w => w | none => 0⟩,
              some ⟨max_steps, hp.lr_decay_min_lr, hp.lr, Int.fdiv max_steps 20,
                hp.lr_warmup_start_lr⟩⟩)
    ∧ (∀ s, hp.lr_scheduler = some s → s ≠ ("cosine") →
        configure_optimizers hp max_steps = Except.error ("Invalid lr_scheduler type!"))
    ∧ (∀ r, configure_optimizers hp max_steps = Except.ok r → r.optimizer.lr = hp.lr) := by
  refine ⟨?_, ?_, ?_, ?_⟩
  · intro h
    simp only [configure_optimizers, h]
  · intro h
    simp [configure_optimizers, h]
  · intro s h hs
    simp [configure_optimizers, h, hs]
  · intro r hr
    rcases hsch : hp.lr_scheduler with _ | s
    · simp only [configure_optimizers, hsch] at hr
      obtain rfl := (Except.ok.inj hr).symm
      rfl
    · by_cases hs : s = ("cosine")
      · subst hs
        simp [configure_optimizers, hsch] at hr
        obtain rfl := hr.symm
        rfl
      · simp [configure_optimizers, hsch, hs] at hr

theorem configure_optimizers_spec_witness :
    configure_optimizers ⟨1, none, 0, 0, none⟩ 100
      = Except.ok ⟨⟨1, 0⟩, none⟩ :=
  (configure_optimizers_spec ⟨1, none, 0, 0, none⟩ 100).1 rfl

/-- C6: `load_llm` stores in `self.model` the pretrained causal LM,
quantized with the 4-bit NF4 double-quantization float16 config, wrapped by
`get_peft_model` with the LoRA config of rank 16, alpha 32, dropout 0.05
targeting the seven projection modules. -/
theorem load_llm_spec :
    load_llm = get_peft_model (LlmModel.pretrained model_id bnb_config) peft_config
    ∧ bnb_config.load_in_4bit = true
    ∧ bnb_config.bnb_4bit_quant_type = ("nf4")
    ∧ bnb_config.bnb_4bit_use_double_quant = true
    ∧ bnb_config.bnb_4bit_compute_dtype = TorchDtype.float16
    ∧ peft_config.r = 16
    ∧ peft_config.lora_alpha = 32
    ∧ peft_config.lora_dropout = 0.05
    ∧ peft_config.target_modules
        = [("up_proj"), ("down_proj"), ("gate_proj"), ("k_proj"), ("q_proj"),
           ("v_proj"), ("o_proj")] :=
  ⟨rfl, rfl, rfl, rfl, rfl, rfl, rfl, rfl, rfl⟩

/-- C7: the loader runs exactly once, at construction: `__init__` invokes
`load_llm` exactly once, and none of `training_step`, `validation_step`,
`test_step`, `generate`, `configure_optimizers` (nor `forward`, which
`training_step` calls) ever invokes it. -/
theorem load_llm_called_once :
    init_calls.count MethodCall.load_llm = 1
    ∧ training_step_calls.count MethodCall.load_llm = 0
    ∧ validation_step_calls.count MethodCall.load_llm = 0
    ∧ test_step_calls.count MethodCall.load_llm = 0
    ∧ generate_calls.count MethodCall.load_llm = 0
    ∧ configure_optimizers_calls.count MethodCall.load_llm = 0
    ∧ forward_calls.count MethodCall.load_llm = 0 := by
  decide

/-- C8 (counterexample): it is not true that `generate` gives identical
outputs for any two batches agreeing on their input list but with arbitrary
answer lists: `zip(batch['input'], batch['answer'])` truncates to the
shorter list, so a shorter answer list drops prompts. -/
theorem generate_answer_dependence_cex :
    ¬ (∀ (B : GenBackend) (input answer1 answer2 : List String),
        generate B input answer1 = generate B input answer2) := by
  intro h
  exact absurd (h idBackend ([("a")]) ([("y")]) ([])) (by decide)

/-- C8 (amended): `generate` builds the model input from `batch['input']`
only, except for the length of `batch['answer']`: two batches agreeing on
their input list whose answer lists have equal length produce identical
decoded outputs, for every backend. -/
theorem generate_independent_of_answers (B : GenBackend)
    (input answer1 answer2 : List String)
    (h : answer1.length = answer2.length) :
    generate B input answer1 = generate B input answer2 := by
  simp only [generate]
  rw [map_fst_zip_take, map_fst_zip_take, h]

theorem generate_independent_of_answers_witness :
    generate idBackend ([("a")]) ([("b")]) = generate idBackend ([("a")]) ([("c")]) :=
  generate_independent_of_answers idBackend ([("a")]) ([("b")]) ([("c")]) rfl

end ChatEV
